import Mathlib

/-!
Verification development for the WeatherAppPY repository.

The Python sources are shallowly embedded over `ℚ`:

* Python floats are modelled as exact rationals.
* `math.exp`, `math.pow`, `np.log`, `np.sin`, `np.cos` are modelled as oracle
  parameters (`ℚ → ℚ` functions); statements that depend on a concrete value of
  such an oracle carry rational interval hypotheses that the true function
  satisfies at the evaluated point.
* Python's `round` (banker's rounding) is `pyRound0` / `round1` below.
* Loosely typed Python arguments are `PyVal` (`None`, a number, or a
  non-numeric string); `float(x)` is `pyFloat`, which raises (`Except.error`)
  on a non-numeric string.
* Code that can raise is embedded in `Except Unit`; a bare `try/except`
  that substitutes a default becomes a `match` on that `Except`.
-/

set_option autoImplicit false

namespace WeatherApp

/-- Python `round(q)` on exact rationals: round half to even. -/

def pyRound0 (q : ℚ) : ℤ :=
  if q - ⌊q⌋ < 1/2 then ⌊q⌋
  else if 1/2 < q - ⌊q⌋ then ⌊q⌋ + 1
  else if ⌊q⌋ % 2 = 0 then ⌊q⌋ else ⌊q⌋ + 1

/-- Python `round(q, 1)` on exact rationals. -/

def round1 (q : ℚ) : ℚ := (pyRound0 (10 * q) : ℚ) / 10

/-- `np.clip(q, lo, hi)`. -/

def clipQ (q lo hi : ℚ) : ℚ := min (max q lo) hi

/-- A loosely typed Python argument: `None`, a float, or a non-numeric string
(we only model strings for which `float(s)` raises `ValueError`). -/

inductive PyVal where
  | none : PyVal
  | num : ℚ → PyVal
  | str : String → PyVal
  deriving DecidableEq, Repr

/-- Python `float(x)`: identity on numbers, raises on `None` and on a
non-numeric string. -/

def pyFloat : PyVal → Except Unit ℚ
  | .none => .error ()
  | .num q => .ok q
  | .str _ => .error ()

/-- `None if x is None else float(x)`, the conversion idiom used in
`calcular_coco`. -/

def optFloat : PyVal → Except Unit (Option ℚ)
  | .none => .ok Option.none
  | .num q => .ok (Option.some q)
  | .str _ => .error ()

/-- Python `int(x)`: truncation toward zero on numbers, raises otherwise. -/

def pyInt : PyVal → Except Unit ℤ
  | .none => .error ()
  | .num q => .ok (if 0 ≤ q then ⌊q⌋ else ⌈q⌉)
  | .str _ => .error ()

/-- Embedding of `parametros._vapour_pressure_hpa` for float inputs (the
`None` guard is composed at call sites; the whole body sits in a `try`, so a
division by zero at `t = -243.12` yields the `except` result `0.0`).
`expf` is the `math.exp` oracle. -/

def vapour_pressure_hpa (expf : ℚ → ℚ) (t rh : ℚ) : ℚ :=
  if (243.12 : ℚ) + t = 0 then 0
  else (rh / 100) * (6.112 * expf ((17.62 * t) / (243.12 + t)))

/-- The priority-ordered COCO decision table written in the body of
`parametros.calcular_coco` (source lines 88-145): default substitution for
missing inputs, then snow tiers, storm/heavy-rain tiers, rain tiers, fog by
humidity and dew-point spread, cloud tiers by humidity, clear, default 2.
In the source this code is reachable only if the preceding `try` block
completed, which it never does (see `calcular_coco_intento`). -/

def calcular_coco_tabla (temp dwpt rhum pres precip snow : Option ℚ) : ℤ :=
  let rhum := rhum.getD 50
  let temp := temp.getD 15
  let dwpt := dwpt.getD (temp - 2)
  let pres := pres.getD 1013
  let precip := precip.getD 0
  let snow := snow.getD 0
  let spread := |temp - dwpt|
  if 5 ≤ snow then 23
  else if 2 ≤ snow then 22
  else if 0 < snow then 21
  else if 50 ≤ precip then 27
  else if 20 ≤ precip ∧ pres < 1005 then 27
  else if 20 ≤ precip then 26
  else if 15 ≤ precip then 9
  else if 5 ≤ precip then 8
  else if 2.5 ≤ precip then 7
  else if 98 ≤ rhum ∧ spread ≤ 1 then 5
  else if 95 ≤ rhum ∧ spread ≤ 2 then 4
  else if 85 ≤ rhum then 3
  else if 70 ≤ rhum then 2
  else if rhum < 55 ∧ 6 < spread then 1
  else 2

/-- The `try` block of `parametros.calcular_coco` (source lines 78-85). After
converting the five parameters it evaluates
`snow = None if snow is None else float(snow)`, but `snow` is not a parameter
of the function and is a local that has not been assigned yet, so this line
always raises `UnboundLocalError`, which the `except Exception` clause
catches. -/

def calcular_coco_intento (temp dwpt rhum pres precip : PyVal) :
    Except Unit (Option ℚ × Option ℚ × Option ℚ × Option ℚ × Option ℚ × Option ℚ) := do
  let t ← optFloat temp
  let d ← optFloat dwpt
  let r ← optFloat rhum
  let p ← optFloat pres
  let pr ← optFloat precip
  let s ← (Except.error () : Except Unit (Option ℚ))
  pure (t, d, r, p, pr, s)

/-- Embedding of `parametros.calcular_coco`: run the `try` block; on the
exception return 2, otherwise fall through to the decision table. -/

def calcular_coco (temp dwpt rhum pres precip : PyVal) : ℤ :=
  match calcular_coco_intento temp dwpt rhum pres precip with
  | .error _ => 2
  | .ok (t, d, r, p, pr, s) => calcular_coco_tabla t d r p pr s

/-- Embedding of `parametros.calcular_wind_chill`. The `float()` casts are not
wrapped in `try/except`, so a non-numeric input raises (`Except.error`).
`powf` is the `math.pow` oracle. -/

def calcular_wind_chill (powf : ℚ → ℚ → ℚ) (temp_c wspd_kmh : PyVal) :
    Except Unit (Option ℚ) :=
  if temp_c = PyVal.none ∨ wspd_kmh = PyVal.none then .ok Option.none
  else do
    let t ← pyFloat temp_c
    let w ← pyFloat wspd_kmh
    if 10 < t ∨ w < 4.8 then pure Option.none
    else pure (Option.some (round1
      (13.12 + 0.6215 * t - 11.37 * powf w 0.16 + 0.3965 * t * powf w 0.16)))

/-- Embedding of `parametros.calcular_heat_index` (Rothfusz regression with the
NOAA low/high-humidity adjustments). The conversions sit inside `try/except`,
so any bad input yields `none`. `sqrtf` is the `math.sqrt` oracle. -/

def calcular_heat_index (sqrtf : ℚ → ℚ) (temp_c rh_pct : PyVal) : Option ℚ :=
  match (do
    if temp_c = PyVal.none ∨ rh_pct = PyVal.none then
      pure Option.none
    else do
      let t ← pyFloat temp_c
      let rh ← pyFloat rh_pct
      pure (Option.some (t, rh)) : Except Unit (Option (ℚ × ℚ))) with
  | .error _ => Option.none
  | .ok Option.none => Option.none
  | .ok (Option.some (t, rh)) =>
    if t < 27 ∨ rh < 40 then Option.none
    else
      let t_f := t * (9/5) + 32
      let hi_f := -42.379 + 2.04901523 * t_f + 10.14333127 * rh
        - 0.22475541 * t_f * rh - 0.00683783 * t_f^2
        - 0.05481717 * rh^2 + 0.00122874 * t_f^2 * rh
        + 0.00085282 * t_f * rh^2 - 0.00000199 * t_f^2 * rh^2
      let hi_f2 :=
        if rh < 13 ∧ 80 ≤ t_f ∧ t_f ≤ 112 then
          hi_f - ((13 - rh) / 4) * sqrtf ((17 - |t_f - 95|) / 17)
        else if 85 < rh ∧ 80 ≤ t_f ∧ t_f ≤ 87 then
          hi_f + ((rh - 85) / 10) * ((87 - t_f) / 5)
        else hi_f
      Option.some (round1 ((hi_f2 - 32) * (5/9)))

/-- Embedding of `parametros.calcular_apparent_temperature`
(`AT = T + 0.33·e − 0.70·v − 4.0`); conversions sit inside `try/except`. -/

def calcular_apparent_temperature (expf : ℚ → ℚ) (temp_c rh_pct wspd_kmh : PyVal) :
    Option ℚ :=
  match (do
    if temp_c = PyVal.none ∨ rh_pct = PyVal.none ∨ wspd_kmh = PyVal.none then
      pure Option.none
    else do
      let t ← pyFloat temp_c
      let rh ← pyFloat rh_pct
      let w ← pyFloat wspd_kmh
      pure (Option.some (t, rh, w)) : Except Unit (Option (ℚ × ℚ × ℚ))) with
  | .error _ => Option.none
  | .ok Option.none => Option.none
  | .ok (Option.some (t, rh, w)) =>
    let v := w / 3.6
    let e := vapour_pressure_hpa expf t rh
    Option.some (round1 (t + 0.33 * e - 0.70 * v - 4))

/-- Embedding of `parametros.calcular_sensacion_termica`: wind chill, then heat
index, then apparent temperature, then the raw temperature; the whole body is
inside `try/except: pass`, so any exception (including one raised by
`calcular_wind_chill` on a non-numeric input) produces the final
`return None`. -/

def calcular_sensacion_termica (powf : ℚ → ℚ → ℚ) (expf sqrtf : ℚ → ℚ)
    (temp rhum wspd : PyVal) : Option ℚ :=
  match (do
    let wc ← calcular_wind_chill powf temp wspd
    let hi := calcular_heat_index sqrtf temp rhum
    let atv := calcular_apparent_temperature expf temp rhum wspd
    match wc with
    | Option.some w => pure (Option.some (round1 w))
    | Option.none =>
      match hi with
      | Option.some h => pure (Option.some (round1 h))
      | Option.none =>
        match atv with
        | Option.some a => pure (Option.some (round1 a))
        | Option.none =>
          if temp = PyVal.none then pure Option.none
          else do
            let t ← pyFloat temp
            pure (Option.some (round1 t)) : Except Unit (Option ℚ)) with
  | .error _ => Option.none
  | .ok v => v

set_option linter.unusedVariables false

/-- The datetime fields of a successfully parsed `fecha_hora` string that
`parametros.calcular_radiacion_uv` reads (`dt.month`, `dt.hour`, `dt.minute`,
`dt.timetuple().tm_yday`). A `fecha_hora` that is `None` or fails
`datetime.fromisoformat` is modelled as `Option.none`. -/

structure FechaHora where
  month : ℤ
  hour : ℤ
  minute : ℤ
  yday : ℤ
  deriving DecidableEq, Repr

/-- The `coco_factor` dictionary lookup (`coco_factor.get(coco, 0.60)`) of
`parametros.calcular_radiacion_uv`; in Python a float key equal to an integer
key matches it, so the lookup compares the numeric value. -/

def cocoFactorLookup (c : PyVal) : ℚ :=
  match c with
  | .num q =>
    if q = 1 then 1.00 else if q = 2 then 0.90 else if q = 3 then 0.70
    else if q = 4 then 0.40 else if q = 5 then 0.25 else if q = 7 then 0.65
    else if q = 8 then 0.55 else if q = 9 then 0.50 else if q = 21 then 0.50
    else if q = 22 then 0.40 else if q = 23 then 0.30 else if q = 26 then 0.25
    else if q = 27 then 0.10 else 0.60
  | _ => 0.60

/-- Embedding of `parametros.calcular_radiacion_uv`. `sinDegf x` is the oracle
for `math.sin(math.radians(x))`; `expf` is the `math.exp` oracle. `temp` is
accepted but never read, exactly as in the source. -/

def calcular_radiacion_uv (sinDegf expf : ℚ → ℚ) (temp coco : PyVal)
    (fecha_hora : Option FechaHora) : ℚ :=
  match fecha_hora with
  | Option.none => 0
  | Option.some dt =>
    let hora_local : ℚ := (dt.hour : ℚ) + (dt.minute : ℚ) / 60
    let mes := dt.month
    let amanecer : ℚ :=
      if mes = 12 ∨ mes = 1 ∨ mes = 2 then 5.45
      else if mes = 3 ∨ mes = 4 ∨ mes = 5 then 6.50
      else if mes = 6 ∨ mes = 7 ∨ mes = 8 then 7.40
      else 6.20
    let atardecer : ℚ :=
      if mes = 12 ∨ mes = 1 ∨ mes = 2 then 20.30
      else if mes = 3 ∨ mes = 4 ∨ mes = 5 then 19.10
      else if mes = 6 ∨ mes = 7 ∨ mes = 8 then 18.25
      else 19.45
    if hora_local < amanecer ∨ atardecer < hora_local then 0
    else
      let eq_time := -7.65 * sinDegf ((360/365) * ((dt.yday : ℚ) + 10))
      let hora_solar := hora_local + eq_time / 60 + (-4 : ℚ) / 60
      let base_uv := 12.5 * expf (-0.5 * ((hora_solar - 12.88) / 2.4)^2)
      let base_uv2 :=
        if mes = 12 ∨ mes = 1 ∨ mes = 2 then base_uv * 1.15
        else if mes = 3 ∨ mes = 4 ∨ mes = 5 then base_uv * 0.85
        else if mes = 6 ∨ mes = 7 ∨ mes = 8 then base_uv * 0.55
        else base_uv * 1.00
      let uv := base_uv2 * cocoFactorLookup coco
      round1 (max 0 (min uv 13))

/-- The `try` block of `parametros.calcular_visibilidad`: seven `float()`/
`int()` conversions; any failure is caught and yields the fallback 20.0. -/

def visConv (temp rhum dwpt prcp snow wspd coco : PyVal) :
    Except Unit (ℚ × ℚ × ℚ × ℚ × ℚ × ℚ × ℤ) := do
  let t ← pyFloat temp
  let d ← pyFloat dwpt
  let rh ← pyFloat rhum
  let v ← pyFloat wspd
  let r ← pyFloat prcp
  let s ← pyFloat snow
  let cc ← if coco = PyVal.none then pure (2 : ℤ) else pyInt coco
  pure (t, d, rh, v, r, s, cc)

/-- The final stage of `parametros.calcular_visibilidad`: base 22 km reduced
by humidity tiers, the COCO fog override, the high-wind reduction, clamped to
`[0.2, 22]` and rounded to 0.1. -/

def visCoreMain (rh v : ℚ) (cc : ℤ) : ℚ :=
  let vis : ℚ := 22
  let vis :=
    if 95 < rh then vis - 15
    else if 85 < rh then vis - 10
    else if 75 < rh then vis - 5
    else if 65 < rh then vis - 3
    else vis
  let vis := if cc = 4 ∨ cc = 5 then 0.5 else vis
  let vis := if 35 < v then vis - 5 else vis
  round1 (max 0.2 (min vis 22))

/-- The branch structure of `parametros.calcular_visibilidad` after successful
conversion: snow, rain, dew-point-spread fog tiers, then `visCoreMain`. -/

def visCore (t d rh v r s : ℚ) (cc : ℤ) : ℚ :=
  if 0 < s then round1 (max 100 (1500 - s * 80) / 1000)
  else if 0 < r then round1 (max 300 (6000 - r * 1000) / 1000)
  else if t - d < 0.5 then 0.2
  else if t - d < 1 then 0.4
  else if t - d < 2 then 0.8
  else if t - d < 3 then 2
  else visCoreMain rh v cc

/-- Embedding of `parametros.calcular_visibilidad`. -/

def calcular_visibilidad (temp rhum dwpt prcp snow wspd coco : PyVal) : ℚ :=
  match visConv temp rhum dwpt prcp snow wspd coco with
  | .error _ => 20
  | .ok (t, d, rh, v, r, s, cc) => visCore t d rh v r s cc

/-- One hourly observation row of a province CSV as handled by
`data.rellenar_horas_perdidas`: timestamp in whole hours (the Meteostat data
is hourly), missing values (`NaN`) as `Option.none`. Columns not read by the
repair pipeline (`sensacionTermica`, `uvIndex`, `wdir`, `wpgt`) are omitted. -/

structure Row where
  fecha : ℤ
  temp : Option ℚ
  dwpt : Option ℚ
  rhum : Option ℚ
  wspd : Option ℚ
  pres : Option ℚ
  prcp : Option ℚ
  snow : Option ℚ
  tsun : Option ℚ
  province : Option String
  coco : Option ℤ
  visibilidad : Option ℚ
  deriving DecidableEq, Repr

/-- The all-missing gap row that `reindex` introduces at hour `t`. -/

def blankRow (t : ℤ) : Row :=
  ⟨t, Option.none, Option.none, Option.none, Option.none, Option.none,
    Option.none, Option.none, Option.none, Option.none, Option.none, Option.none⟩

/-- `PyVal` view of an optional float column value (`NaN`/missing ↦ `None`). -/

def pvOf : Option ℚ → PyVal
  | Option.none => PyVal.none
  | Option.some q => PyVal.num q

/-- Stable insertion used by `sortRows`. -/

def insertRow (a : Row) : List Row → List Row
  | [] => [a]
  | b :: bs => if b.fecha ≤ a.fecha then b :: insertRow a bs else a :: b :: bs

/-- `df.sort_values("fecha_hora")`. -/

def sortRows (df : List Row) : List Row :=
  df.foldl (fun acc r => insertRow r acc) []

/-- `pd.date_range(t0, tN, freq="h")` on whole-hour timestamps. -/

def hourlyGrid (t0 tN : ℤ) : List ℤ :=
  (List.range ((tN - t0).toNat + 1)).map (fun k : ℕ => t0 + (k : ℤ))

/-- `df.set_index("fecha_hora").reindex(all_hours)` for a duplicate-free
index: the row with the matching timestamp, or an all-missing gap row. -/

def reindexRows (grid : List ℤ) (sorted : List Row) : List Row :=
  grid.map (fun t => (sorted.find? (fun r => r.fecha == t)).getD (blankRow t))

/-- The column value at position `j` (`Option.none` outside the column). -/

def knownAt (cols : List (Option ℚ)) (j : ℕ) : Option ℚ :=
  cols.getD j Option.none

/-- Position and value of the last known entry at or before `i`. -/

def prevKnown (cols : List (Option ℚ)) (i : ℕ) : Option (ℕ × ℚ) :=
  (List.range (i + 1)).reverse.findSome?
    (fun j => (knownAt cols j).map (fun v => (j, v)))

/-- Position and value of the first known entry at or after `i`. -/

def nextKnown (cols : List (Option ℚ)) (i : ℕ) : Option (ℕ × ℚ) :=
  (List.range' i (cols.length - i)).findSome?
    (fun j => (knownAt cols j).map (fun v => (j, v)))

/-- `Series.interpolate(limit_direction="both")` (linear method) at position
`i`: known values kept; interior gaps linearly interpolated between the
nearest known neighbours; leading/trailing gaps filled with the nearest known
value; all-missing columns left missing. -/

def interpAt (cols : List (Option ℚ)) (i : ℕ) : Option ℚ :=
  match knownAt cols i with
  | Option.some v => Option.some v
  | Option.none =>
    match prevKnown cols i, nextKnown cols i with
    | Option.some (j1, v1), Option.some (j2, v2) =>
      Option.some (v1 + (v2 - v1) * ((i : ℚ) - (j1 : ℚ)) / ((j2 : ℚ) - (j1 : ℚ)))
    | Option.some (_, v1), Option.none => Option.some v1
    | Option.none, Option.some (_, v2) => Option.some v2
    | Option.none, Option.none => Option.none

/-- `Series.ffill().bfill()` at position `i` for the `province` column. -/

def ffillBfillAt (cols : List (Option String)) (i : ℕ) : Option String :=
  match (List.range (i + 1)).reverse.findSome? (fun j => cols.getD j Option.none) with
  | Option.some v => Option.some v
  | Option.none => (List.range' i (cols.length - i)).findSome? (fun j => cols.getD j Option.none)

/-- `df.round(0)` on a float value. -/

def round0q (q : ℚ) : ℚ := ((pyRound0 q : ℤ) : ℚ)

/-- The inner `asegurar_coco` of `data.rellenar_horas_perdidas`: keep a valid
existing COCO, otherwise recompute it with `calcular_coco` (passing the row's
possibly-interpolated fields, with the documented dew-point and pressure
defaults unused because those columns exist). -/

def asegurar_coco (temp dwpt rhum pres : Option ℚ) (prcp : ℚ)
    (coco : Option ℤ) : ℤ :=
  match coco with
  | Option.none =>
    calcular_coco (pvOf temp) (pvOf dwpt) (pvOf rhum) (pvOf pres) (.num prcp)
  | Option.some c =>
    if c = -1 then
      calcular_coco (pvOf temp) (pvOf dwpt) (pvOf rhum) (pvOf pres) (.num prcp)
    else c

/-- The column-wise repair of `data.rellenar_horas_perdidas` after
reindexing: zero-fill `prcp`/`snow`/`tsun`, interpolate the continuous
fields, forward/backward-fill `province`, recompute invalid COCO values,
compute visibility, and round to the display precisions. -/

def repara (reidx : List Row) : List Row :=
  List.ofFn (fun i : Fin reidx.length =>
    let r := reidx.get i
    let temp' := interpAt (reidx.map (·.temp)) i
    let dwpt' := interpAt (reidx.map (·.dwpt)) i
    let rhum' := interpAt (reidx.map (·.rhum)) i
    let wspd' := interpAt (reidx.map (·.wspd)) i
    let pres' := interpAt (reidx.map (·.pres)) i
    let prcp' := (r.prcp).getD 0
    let snow' := (r.snow).getD 0
    let tsun' := (r.tsun).getD 0
    let coco' := asegurar_coco temp' dwpt' rhum' pres' prcp' r.coco
    let vis' := calcular_visibilidad (pvOf temp') (pvOf rhum') (pvOf dwpt')
      (.num prcp') (.num snow') (pvOf wspd') (.num (coco' : ℚ))
    { fecha := r.fecha
      temp := temp'.map round1
      dwpt := dwpt'.map round1
      rhum := rhum'.map round0q
      wspd := wspd'.map round1
      pres := pres'.map round1
      prcp := Option.some (round1 prcp')
      snow := Option.some (round1 snow')
      tsun := Option.some tsun'
      province := ffillBfillAt (reidx.map (·.province)) i
      coco := Option.some coco'
      visibilidad := Option.some (round1 vis') })

/-- `df["fecha_hora"].min()` (0 is never used: the caller raises on an empty
frame before reading it). -/

def minFecha (df : List Row) : ℤ := ((df.map (·.fecha)).min?).getD 0

/-- `df["fecha_hora"].max()`. -/

def maxFecha (df : List Row) : ℤ := ((df.map (·.fecha)).max?).getD 0

/-- Embedding of `data.rellenar_horas_perdidas`. An empty frame makes
`pd.date_range(NaT, NaT)` raise; duplicate timestamps make
`reindex` raise (`cannot reindex on an axis with duplicate labels`); both are
modelled as `Except.error` (in `data.procesar_provincia` the call is wrapped
in `try/except: pass`). -/

def rellenar_horas_perdidas (df : List Row) : Except Unit (List Row) :=
  match df with
  | [] => .error ()
  | _ :: _ =>
    let sorted := sortRows df
    if ((sorted.map (·.fecha)).Nodup) then
      .ok (repara (reindexRows (hourlyGrid (minFecha df) (maxFecha df)) sorted))
    else .error ()

/-- `pd.concat(...).drop_duplicates(subset="fecha_hora", keep="last")`, the
merge-time de-duplication of `data.procesar_provincia` (the repair engine
itself never collapses duplicates). -/

def dropDupKeepLast : List Row → List Row
  | [] => []
  | r :: rs =>
    if rs.any (fun r2 => r2.fecha == r.fecha) then dropDupKeepLast rs
    else r :: dropDupKeepLast rs

/-- The last historical row (`ultimo = df.iloc[-1]`) and rolling state of
`modelo_pronostico.predecir_7dias`, restricted to the columns the loop reads
or writes. The forecast-time frame has no lag/rolling columns (they are built
only inside `entrenar_modelo` on its own copy), so `ultimo.get(f, 0.0)`
returns the field when `f` is one of these names, the one-hot
`province_*`/`estacion_*` value when present in `dummies`, and the default
0.0 otherwise. -/

structure Ultimo where
  temp : ℚ
  dwpt : ℚ
  rhum : ℚ
  pres : ℚ
  prcp : ℚ
  wspd : ℚ
  sensaciontermica : ℚ
  month : ℚ
  dayofyear : ℚ
  hour : ℚ
  sin_hour : ℚ
  cos_hour : ℚ
  sin_doy : ℚ
  cos_doy : ℚ
  dummies : List (String × ℚ)
  deriving DecidableEq, Repr

/-- `ultimo.get(f, 0.0)` over the forecast-time row. -/

def getU (u : Ultimo) (f : String) : ℚ :=
  if f = "temp" then u.temp
  else if f = "dwpt" then u.dwpt
  else if f = "rhum" then u.rhum
  else if f = "pres" then u.pres
  else if f = "prcp" then u.prcp
  else if f = "wspd" then u.wspd
  else if f = "sensaciontermica" then u.sensaciontermica
  else if f = "month" then u.month
  else if f = "dayofyear" then u.dayofyear
  else if f = "hour" then u.hour
  else if f = "sin_hour" then u.sin_hour
  else if f = "cos_hour" then u.cos_hour
  else if f = "sin_doy" then u.sin_doy
  else if f = "cos_doy" then u.cos_doy
  else (u.dummies.lookup f).getD 0

/-- The 14 directly-stored feature names of `getU`. -/

def baseFeatureNames : List String :=
  ["temp", "dwpt", "rhum", "pres", "prcp", "wspd", "sensaciontermica",
   "month", "dayofyear", "hour", "sin_hour", "cos_hour", "sin_doy", "cos_doy"]

def weatherCols : List String :=
  ["temp", "dwpt", "rhum", "pres", "prcp", "wspd", "sensaciontermica"]

/-- The lag and rolling-mean feature names `entrenar_modelo` appends per
weather column (`lag_hours = [1, 24, 48]`, rolling 24 and 72). -/

def lagRollNames : List String :=
  weatherCols.flatMap (fun c =>
    [c ++ "_lag1", c ++ "_lag24", c ++ "_lag48", c ++ "_roll24", c ++ "_roll72"])

/-- The ordered feature-name list produced by `entrenar_modelo`: the base
physical/time features, then per-column lags and rolling means, then the
one-hot `province_*`/`estacion_*` columns. -/

def featuresList (dummyCols : List String) : List String :=
  baseFeatureNames ++ lagRollNames ++ dummyCols

/-- The per-run inputs of `predecir_7dias`: the fitted models composed with
the fitted scaler (`fun X => model.predict(scaler.transform(X))[0]`, opaque),
the training feature names, the month/hour-12 temperature quantile
dictionaries, the temperature standard deviation, the calendar data of
`fecha_base + dia`, the `np.random` draws consumed per day, and oracles for
`np.log`, `math.pow`, `math.exp`, `math.sqrt` and the `np.sin`/`np.cos`
values of the fixed hour-12 and per-day day-of-year encodings. -/

structure Params where
  mTemp : List ℚ → ℚ
  mRhum : List ℚ → ℚ
  mPres : List ℚ → ℚ
  mWspd : List ℚ → ℚ
  features : List String
  stats90 : ℤ → Option ℚ
  stats10 : ℤ → Option ℚ
  globalStd : ℚ
  months : ℕ → ℤ
  doys : ℕ → ℤ
  fechasStr : ℕ → String
  provincia : String
  gNormal : ℕ → ℚ
  gUnif : ℕ → ℚ
  gHigh : ℕ → ℚ
  gLow : ℕ → ℚ
  logf : ℚ → ℚ
  powf : ℚ → ℚ → ℚ
  expf : ℚ → ℚ
  sqrtf : ℚ → ℚ
  sinHour12 : ℚ
  cosHour12 : ℚ
  sinDoy : ℕ → ℚ
  cosDoy : ℕ → ℚ

/-- One produced Forecast Day dictionary of `predecir_7dias`. -/

structure Entry where
  province : String
  fecha : String
  temp_avg : ℤ
  temp_high : ℤ
  temp_low : ℤ
  precip : ℚ
  coco : ℤ
  sensacion_termica : ℤ
  deriving DecidableEq, Repr

/-- Lines 179-186 of `predecir_7dias`: overwrite the calendar fields of
`ultimo` for forecast day `d` (hour fixed at 12). The string-valued
`estacion` entry is also set in the source but is never read into the
numeric feature row. -/

def setCalendar (P : Params) (d : ℕ) (u : Ultimo) : Ultimo :=
  { u with
    month := (P.months d : ℚ)
    dayofyear := (P.doys d : ℚ)
    hour := 12
    sin_hour := P.sinHour12
    cos_hour := P.cosHour12
    sin_doy := P.sinDoy d
    cos_doy := P.cosDoy d }

/-- `X = np.array([ultimo.get(f, 0.0) for f in features])` for day `d`. -/

def dayRow (P : Params) (d : ℕ) (u : Ultimo) : List ℚ :=
  P.features.map (getU (setCalendar P d u))

/-- `temp_pred`: the model prediction on the scaled feature row, plus the
`np.random.normal(0, global_std) + np.random.uniform(-1, 1)` perturbation on
every day except day 0. -/

def tempPredOf (P : Params) (d : ℕ) (u : Ultimo) : ℚ :=
  P.mTemp (dayRow P d u) + (if d = 0 then 0 else P.gNormal d + P.gUnif d)

def rhumPredOf (P : Params) (d : ℕ) (u : Ultimo) : ℚ := P.mRhum (dayRow P d u)

def presPredOf (P : Params) (d : ℕ) (u : Ultimo) : ℚ := P.mPres (dayRow P d u)

def wspdPredOf (P : Params) (d : ℕ) (u : Ultimo) : ℚ := P.mWspd (dayRow P d u)

/-- `dwpt_pred` via the inverted Magnus-Tetens relation with
`np.clip(rhum_pred, 1, 100)`; the `try/except` fallback `temp_pred - 2`
covers the two possible `ZeroDivisionError`s. -/

def dwptPredOf (P : Params) (d : ℕ) (u : Ultimo) : ℚ :=
  let t := tempPredOf P d u
  if (237.7 : ℚ) + t = 0 then t - 2
  else
    let alpha := (17.27 * t) / (237.7 + t) + P.logf (clipQ (rhumPredOf P d u) 1 100 / 100)
    if (17.27 : ℚ) - alpha = 0 then t - 2
    else (237.7 * alpha) / (17.27 - alpha)

/-- `precip`: humidity and pressure factors clipped to `[0, 1]`, blended,
scaled to 3 mm, rounded to 0.1, zeroed below 0.1. -/

def precipOf (P : Params) (d : ℕ) (u : Ultimo) : ℚ :=
  let humedad_factor := clipQ ((rhumPredOf P d u - 70) / 30) 0 1
  let presion_factor := clipQ ((1018 - presPredOf P d u) / 20) 0 1
  let prob_lluvia := 0.5 * humedad_factor + 0.5 * presion_factor
  let precip := round1 (prob_lluvia * 3.0)
  if precip < 0.1 then 0 else precip

/-- `temp_high` before rounding: `max(temp_pred, temp_stats_90.get((month, 12),
temp_pred + global_std)) + np.random.uniform(0, 2)`. -/

def tempHighRawOf (P : Params) (d : ℕ) (u : Ultimo) : ℚ :=
  max (tempPredOf P d u)
    ((P.stats90 (P.months d)).getD (tempPredOf P d u + P.globalStd)) + P.gHigh d

/-- `temp_low` before rounding: `min(temp_pred, temp_stats_10.get((month, 12),
temp_pred - global_std)) + np.random.uniform(-2, 0)`. -/

def tempLowRawOf (P : Params) (d : ℕ) (u : Ultimo) : ℚ :=
  min (tempPredOf P d u)
    ((P.stats10 (P.months d)).getD (tempPredOf P d u - P.globalStd)) + P.gLow d

/-- The Forecast Day dictionary appended for day `d` (given the non-`None`
sensation temperature `sens`). -/

def entryOf (P : Params) (d : ℕ) (u : Ultimo) (sens : ℚ) : Entry :=
  { province := P.provincia
    fecha := P.fechasStr d
    temp_avg := pyRound0 (tempPredOf P d u)
    temp_high := pyRound0 (tempHighRawOf P d u)
    temp_low := pyRound0 (tempLowRawOf P d u)
    precip := precipOf P d u
    coco := calcular_coco (.num (tempPredOf P d u)) (.num (dwptPredOf P d u))
      (.num (rhumPredOf P d u)) (.num (presPredOf P d u)) (.num (precipOf P d u))
    sensacion_termica := pyRound0 sens }

/-- Lines 242-247: fold the predictions back into the rolling state. Only the
six base fields are updated; no lag or rolling feature exists to update. -/

def nextUOf (P : Params) (d : ℕ) (u : Ultimo) : Ultimo :=
  { setCalendar P d u with
    temp := tempPredOf P d u
    dwpt := dwptPredOf P d u
    rhum := rhumPredOf P d u
    pres := presPredOf P d u
    prcp := precipOf P d u
    wspd := wspdPredOf P d u }

/-- One iteration of the `for dia in range(7)` loop of `predecir_7dias`. If
`calcular_sensacion_termica` returned `None`, `round(sens_term)` would raise
`TypeError` (modelled as `Except.error`); with numeric predictions this never
happens (`sensacion_num_some`). -/

def step (P : Params) (d : ℕ) (u : Ultimo) : Except Unit (Entry × Ultimo) :=
  match calcular_sensacion_termica P.powf P.expf P.sqrtf
      (.num (tempPredOf P d u)) (.num (rhumPredOf P d u))
      (.num (wspdPredOf P d u)) with
  | Option.none => .error ()
  | Option.some sens => .ok (entryOf P d u sens, nextUOf P d u)

def predecirAux (P : Params) : ℕ → ℕ → Ultimo → Except Unit (List Entry)
  | 0, _, _ => .ok []
  | n + 1, d, u => do
    let (e, u2) ← step P d u
    let rest ← predecirAux P n (d + 1) u2
    pure (e :: rest)

/-- Embedding of `modelo_pronostico.predecir_7dias`: seven chained steps
starting from the latest historical row. -/

def predecir_7dias (P : Params) (ultimo : Ultimo) : Except Unit (List Entry) :=
  predecirAux P 7 0 ultimo

/-- The two-row gapped series used to witness C6: observations at hours 0 and
2, hour 1 missing. -/

def dfGap : List Row :=
  [{ blankRow 0 with temp := Option.some 20, province := Option.some "BuenosAires" },
   { blankRow 2 with temp := Option.some 24, province := Option.some "BuenosAires" }]

/-- A concrete last-observation row used by the forecaster examples:
temperature 20, humidity 90, pressure 1013, wind 10, no one-hot columns (a
single-province frame dummy-encoded with `drop_first=True` has none). -/
def u0ex : Ultimo :=
  { temp := 20, dwpt := 18, rhum := 90, pres := 1013, prcp := 0, wspd := 10,
    sensaciontermica := 20, month := 1, dayofyear := 9, hour := 23,
    sin_hour := 0, cos_hour := 0, sin_doy := 0, cos_doy := 0, dummies := [] }

/-- Concrete forecaster inputs: constant models (a Random Forest trained on a
constant history predicts a constant), empty or single-entry quantile
dictionaries, zero/fixed random draws, and honest oracle values at the points
actually evaluated (`np.log 1 = 0`, `math.pow(10, 0.16) ≈ 1.4454`,
`math.exp(1.3393) ≈ 3.8166`, `np.sin π ≈ 0`, `np.cos π = -1`). -/
def constParams (mt mr mp mw : ℚ) (s90 s10 : Option ℚ) (sd gN : ℚ) : Params :=
  { mTemp := fun _ => mt
    mRhum := fun _ => mr
    mPres := fun _ => mp
    mWspd := fun _ => mw
    features := featuresList []
    stats90 := fun _ => s90
    stats10 := fun _ => s10
    globalStd := sd
    months := fun _ => 1
    doys := fun _ => 10
    fechasStr := fun _ => "2026-01-10"
    provincia := "BuenosAires"
    gNormal := fun _ => gN
    gUnif := fun _ => 0
    gHigh := fun _ => 0
    gLow := fun _ => 0
    logf := fun _ => 0
    powf := fun _ _ => 14454/10000
    expf := fun _ => 38166/10000
    sqrtf := fun _ => 0
    sinHour12 := 0
    cosHour12 := -1
    sinDoy := fun _ => 0
    cosDoy := fun _ => 0 }

/-- Run for C2: the model predicts 5 while the latest observation is 20. -/
def P2ex : Params := constParams 5 100 1013 10 Option.none Option.none 2 0

/-- Run for C3: a cold historical 10th percentile (-50) far below the
predicted dew point. -/
def P3ex : Params := constParams 20 100 1013 10 Option.none (Option.some (-50)) 2 0

/-- Run for C4: the model predicts -30 degrees, pressure 900 hPa, and the
day-1 normal draw is -20. -/
def P4ex : Params := constParams (-30) 100 900 10 Option.none Option.none 2 (-20)

/-- Run for C9: constant model 20, no dummy columns. -/
def P9ex : Params := constParams 20 100 1013 10 Option.none Option.none 2 0

/-- Run family for C4 (amended): the temperature model predicts `q`. -/
def C4P (q : ℚ) : Params := constParams q 100 1013 10 Option.none Option.none 2 0

/-- The day-0 Forecast Day entry produced by the C2 run. -/
def E2ex : Entry :=
  { province := "BuenosAires", fecha := "2026-01-10", temp_avg := 5,
    temp_high := 7, temp_low := 3, precip := 19/10, coco := 2,
    sensacion_termica := 3 }

theorem pyRound0_eq_or (q : ℚ) : pyRound0 q = ⌊q⌋ ∨ pyRound0 q = ⌊q⌋ + 1 := by
  unfold pyRound0; split_ifs <;> simp

theorem pyRound0_le (q : ℚ) : (pyRound0 q : ℚ) ≤ q + 1/2 := by
  have h1 : (⌊q⌋ : ℚ) ≤ q := Int.floor_le q
  have h2 : q < ⌊q⌋ + 1 := Int.lt_floor_add_one q
  unfold pyRound0
  split_ifs <;> push_cast <;> linarith

theorem le_pyRound0 (q : ℚ) : q - 1/2 ≤ (pyRound0 q : ℚ) := by
  have h1 : (⌊q⌋ : ℚ) ≤ q := Int.floor_le q
  have h2 : q < ⌊q⌋ + 1 := Int.lt_floor_add_one q
  unfold pyRound0
  split_ifs <;> push_cast <;> linarith

theorem pyRound0_mono {q r : ℚ} (h : q ≤ r) : pyRound0 q ≤ pyRound0 r := by
  rcases lt_or_eq_of_le (Int.floor_le_floor h) with hf | hf
  · rcases pyRound0_eq_or q with hq | hq <;> rcases pyRound0_eq_or r with hr | hr <;>
      rw [hq, hr] <;> omega
  · unfold pyRound0
    rw [hf]
    have hqr : q - (⌊r⌋ : ℚ) ≤ r - (⌊r⌋ : ℚ) := by linarith
    split_ifs <;> first | omega | (exfalso; linarith)

theorem pyRound0_intCast (k : ℤ) : pyRound0 (k : ℚ) = k := by
  unfold pyRound0
  rw [Int.floor_intCast]
  have h : (k : ℚ) - (k : ℚ) < 1/2 := by norm_num
  rw [if_pos h]

theorem round1_ge {q : ℚ} (m : ℤ) (h : (m : ℚ)/10 ≤ q) : (m : ℚ)/10 ≤ round1 q := by
  unfold round1
  have h1 : 10 * q - 1/2 ≤ (pyRound0 (10 * q) : ℚ) := le_pyRound0 (10 * q)
  have h2 : (m : ℚ) < (pyRound0 (10 * q) : ℚ) + 1 := by linarith
  have h3 : m < pyRound0 (10 * q) + 1 := by exact_mod_cast h2
  have h4 : (m : ℚ) ≤ (pyRound0 (10 * q) : ℚ) := by exact_mod_cast Int.lt_add_one_iff.mp h3
  linarith

theorem round1_le {q : ℚ} (m : ℤ) (h : q ≤ (m : ℚ)/10) : round1 q ≤ (m : ℚ)/10 := by
  unfold round1
  have h1 : (pyRound0 (10 * q) : ℚ) ≤ 10 * q + 1/2 := pyRound0_le (10 * q)
  have h2 : (pyRound0 (10 * q) : ℚ) < (m : ℚ) + 1 := by linarith
  have h3 : pyRound0 (10 * q) < m + 1 := by exact_mod_cast h2
  have h4 : (pyRound0 (10 * q) : ℚ) ≤ (m : ℚ) := by exact_mod_cast Int.lt_add_one_iff.mp h3
  linarith

theorem round1_tenth (q : ℚ) : ∃ k : ℤ, round1 q = (k : ℚ)/10 :=
  ⟨pyRound0 (10 * q), rfl⟩

theorem round1_le_half (q : ℚ) : round1 q ≤ q + 1/20 := by
  unfold round1
  have := pyRound0_le (10 * q)
  linarith

theorem half_le_round1 (q : ℚ) : q - 1/20 ≤ round1 q := by
  unfold round1
  have := le_pyRound0 (10 * q)
  linarith

theorem round1_idem (q : ℚ) : round1 (round1 q) = round1 q := by
  unfold round1
  rw [show (10 : ℚ) * ((pyRound0 (10 * q) : ℚ)/10) = (pyRound0 (10 * q) : ℚ) by ring,
    pyRound0_intCast]

theorem ex_bind_ok {α β : Type} (a : α) (f : α → Except Unit β) :
    (Except.ok a : Except Unit α) >>= f = f a := rfl

theorem ex_bind_err {α β : Type} (f : α → Except Unit β) :
    (Except.error () : Except Unit α) >>= f = Except.error () := rfl

theorem num_ne_none (q : ℚ) : (PyVal.num q = PyVal.none) = False := by simp

theorem ex_pure {α : Type} (a : α) : (pure a : Except Unit α) = Except.ok a := rfl

theorem round1_bounds_22 {x : ℚ} (m1 m2 : ℤ) (hm1 : 1 ≤ m1) (hm2 : m2 ≤ 220)
    (h1 : (m1 : ℚ)/10 ≤ x) (h2 : x ≤ (m2 : ℚ)/10) :
    1/10 ≤ round1 x ∧ round1 x ≤ 22 ∧ ∃ k : ℤ, round1 x = (k : ℚ)/10 := by
  have l1 := round1_ge m1 h1
  have l2 := round1_le m2 h2
  have c1 : (1 : ℚ) ≤ (m1 : ℚ) := by exact_mod_cast hm1
  have c2 : (m2 : ℚ) ≤ 220 := by exact_mod_cast hm2
  exact ⟨by linarith, by linarith, round1_tenth x⟩

theorem round1_clamp_02_22 (w : ℚ) :
    1/10 ≤ round1 (max 0.2 (min w 22)) ∧ round1 (max 0.2 (min w 22)) ≤ 22 ∧
    ∃ k : ℤ, round1 (max 0.2 (min w 22)) = (k : ℚ)/10 := by
  refine round1_bounds_22 2 220 (by norm_num) (by norm_num) ?_ ?_
  · have h := le_max_left (0.2 : ℚ) (min w 22)
    push_cast
    linarith
  · have h : max (0.2 : ℚ) (min w 22) ≤ 22 := max_le (by norm_num) (min_le_right w 22)
    push_cast
    linarith

theorem visCoreMain_bounds (rh v : ℚ) (cc : ℤ) :
    1/10 ≤ visCoreMain rh v cc ∧ visCoreMain rh v cc ≤ 22 ∧
    ∃ k : ℤ, visCoreMain rh v cc = (k : ℚ)/10 := by
  simp only [visCoreMain]
  exact round1_clamp_02_22 _

theorem visCore_bounds (t d rh v r s : ℚ) (cc : ℤ) :
    1/10 ≤ visCore t d rh v r s cc ∧ visCore t d rh v r s cc ≤ 22 ∧
    ∃ k : ℤ, visCore t d rh v r s cc = (k : ℚ)/10 := by
  unfold visCore
  split_ifs with hs hr h1 h2 h3 h4
  · refine round1_bounds_22 1 15 (by norm_num) (by norm_num) ?_ ?_
    · have := le_max_left (100 : ℚ) (1500 - s * 80)
      push_cast
      linarith
    · have h : max (100 : ℚ) (1500 - s * 80) ≤ 1500 :=
        max_le (by norm_num) (by linarith)
      push_cast
      linarith
  · refine round1_bounds_22 3 60 (by norm_num) (by norm_num) ?_ ?_
    · have := le_max_left (300 : ℚ) (6000 - r * 1000)
      push_cast
      linarith
    · have h : max (300 : ℚ) (6000 - r * 1000) ≤ 6000 :=
        max_le (by norm_num) (by linarith)
      push_cast
      linarith
  · exact ⟨by norm_num, by norm_num, 2, by norm_num⟩
  · exact ⟨by norm_num, by norm_num, 4, by norm_num⟩
  · exact ⟨by norm_num, by norm_num, 8, by norm_num⟩
  · exact ⟨by norm_num, by norm_num, 20, by norm_num⟩
  · exact visCoreMain_bounds rh v cc

theorem uv_clamp_bounds (u : ℚ) :
    0 ≤ round1 (max 0 (min u 13)) ∧ round1 (max 0 (min u 13)) ≤ 13 ∧
    ∃ k : ℤ, round1 (max 0 (min u 13)) = (k : ℚ)/10 := by
  have h1 : ((0 : ℤ) : ℚ)/10 ≤ max 0 (min u 13) := by
    have := le_max_left (0 : ℚ) (min u 13)
    push_cast
    linarith
  have h2 : max (0 : ℚ) (min u 13) ≤ ((130 : ℤ) : ℚ)/10 := by
    have h := max_le (by norm_num : (0 : ℚ) ≤ 13) (min_le_right u 13)
    push_cast
    linarith
  have g1 := round1_ge 0 h1
  have g2 := round1_le 130 h2
  refine ⟨by push_cast at g1; linarith, by push_cast at g2; linarith, round1_tenth _⟩

theorem getU_not_base (u : Ultimo) (n : String) (h : n ∉ baseFeatureNames) :
    getU u n = (u.dummies.lookup n).getD 0 := by
  have h1 : ¬(n = "temp") := fun e => absurd (by decide : ("temp" : String) ∈ baseFeatureNames) (e ▸ h)
  have h2 : ¬(n = "dwpt") := fun e => absurd (by decide : ("dwpt" : String) ∈ baseFeatureNames) (e ▸ h)
  have h3 : ¬(n = "rhum") := fun e => absurd (by decide : ("rhum" : String) ∈ baseFeatureNames) (e ▸ h)
  have h4 : ¬(n = "pres") := fun e => absurd (by decide : ("pres" : String) ∈ baseFeatureNames) (e ▸ h)
  have h5 : ¬(n = "prcp") := fun e => absurd (by decide : ("prcp" : String) ∈ baseFeatureNames) (e ▸ h)
  have h6 : ¬(n = "wspd") := fun e => absurd (by decide : ("wspd" : String) ∈ baseFeatureNames) (e ▸ h)
  have h7 : ¬(n = "sensaciontermica") := fun e => absurd (by decide : ("sensaciontermica" : String) ∈ baseFeatureNames) (e ▸ h)
  have h8 : ¬(n = "month") := fun e => absurd (by decide : ("month" : String) ∈ baseFeatureNames) (e ▸ h)
  have h9 : ¬(n = "dayofyear") := fun e => absurd (by decide : ("dayofyear" : String) ∈ baseFeatureNames) (e ▸ h)
  have h10 : ¬(n = "hour") := fun e => absurd (by decide : ("hour" : String) ∈ baseFeatureNames) (e ▸ h)
  have h11 : ¬(n = "sin_hour") := fun e => absurd (by decide : ("sin_hour" : String) ∈ baseFeatureNames) (e ▸ h)
  have h12 : ¬(n = "cos_hour") := fun e => absurd (by decide : ("cos_hour" : String) ∈ baseFeatureNames) (e ▸ h)
  have h13 : ¬(n = "sin_doy") := fun e => absurd (by decide : ("sin_doy" : String) ∈ baseFeatureNames) (e ▸ h)
  have h14 : ¬(n = "cos_doy") := fun e => absurd (by decide : ("cos_doy" : String) ∈ baseFeatureNames) (e ▸ h)
  unfold getU
  rw [if_neg h1, if_neg h2, if_neg h3, if_neg h4, if_neg h5, if_neg h6,
    if_neg h7, if_neg h8, if_neg h9, if_neg h10, if_neg h11, if_neg h12,
    if_neg h13, if_neg h14]

theorem windchill_num_ok (powf : ℚ → ℚ → ℚ) (t w : ℚ) :
    ∃ o, calcular_wind_chill powf (.num t) (.num w) = .ok o := by
  unfold calcular_wind_chill
  rw [if_neg (by simp)]
  by_cases h : (10 : ℚ) < t ∨ w < 4.8
  · exact ⟨Option.none, by simp [pyFloat, ex_bind_ok, ex_pure, h]⟩
  · exact ⟨Option.some (round1 (13.12 + 0.6215 * t - 11.37 * powf w 0.16
      + 0.3965 * t * powf w 0.16)), by simp [pyFloat, ex_bind_ok, ex_pure, h]⟩

theorem apparent_num (expf : ℚ → ℚ) (t r w : ℚ) :
    calcular_apparent_temperature expf (.num t) (.num r) (.num w) =
      Option.some (round1 (t + 0.33 * vapour_pressure_hpa expf t r - 0.70 * (w / 3.6) - 4)) := rfl

theorem sensacion_num_some (powf : ℚ → ℚ → ℚ) (expf sqrtf : ℚ → ℚ) (t r w : ℚ) :
    ∃ v, calcular_sensacion_termica powf expf sqrtf (.num t) (.num r) (.num w) =
      Option.some v := by
  obtain ⟨o, ho⟩ := windchill_num_ok powf t w
  unfold calcular_sensacion_termica
  rw [ho, ex_bind_ok]
  cases o with
  | some wv => exact ⟨_, rfl⟩
  | none =>
    cases hhi : calcular_heat_index sqrtf (.num t) (.num r) with
    | some hv => exact ⟨round1 hv, by simp [hhi, ex_pure]⟩
    | none =>
      exact ⟨round1 (round1 (t + 0.33 * vapour_pressure_hpa expf t r
        - 0.70 * (w / 3.6) - 4)), by simp [hhi, apparent_num, ex_pure]⟩

theorem calcular_coco_eq_two (temp dwpt rhum pres precip : PyVal) :
    calcular_coco temp dwpt rhum pres precip = 2 := by
  cases temp <;> cases dwpt <;> cases rhum <;> cases pres <;> cases precip <;> rfl

theorem step_ok (P : Params) (d : ℕ) (u : Ultimo) :
    ∃ sens, step P d u = .ok (entryOf P d u sens, nextUOf P d u) := by
  obtain ⟨v, hv⟩ := sensacion_num_some P.powf P.expf P.sqrtf
    (tempPredOf P d u) (rhumPredOf P d u) (wspdPredOf P d u)
  exact ⟨v, by unfold step; rw [hv]⟩

theorem step_ok_inv (P : Params) (d : ℕ) (u : Ultimo) (e : Entry) (u2 : Ultimo)
    (hs : step P d u = .ok (e, u2)) :
    (∃ sens, e = entryOf P d u sens) ∧ u2 = nextUOf P d u := by
  unfold step at hs
  cases hsens : calcular_sensacion_termica P.powf P.expf P.sqrtf
      (.num (tempPredOf P d u)) (.num (rhumPredOf P d u))
      (.num (wspdPredOf P d u)) with
  | none =>
    rw [hsens] at hs
    exact absurd hs (by simp)
  | some sens =>
    rw [hsens] at hs
    simp only [Except.ok.injEq, Prod.mk.injEq] at hs
    exact ⟨⟨sens, hs.1.symm⟩, hs.2.symm⟩

theorem predecir_head (P : Params) (u : Ultimo) (e : Entry) (u2 : Ultimo)
    (l : List Entry) (hs : step P 0 u = .ok (e, u2))
    (hp : predecir_7dias P u = .ok l) : l.head? = Option.some e := by
  unfold predecir_7dias predecirAux at hp
  rw [hs, ex_bind_ok] at hp
  dsimp only at hp
  cases hrest : predecirAux P 6 (0 + 1) u2 with
  | error err =>
    rw [hrest] at hp
    simp [ex_bind_err] at hp
  | ok rest =>
    rw [hrest, ex_bind_ok, ex_pure] at hp
    simp only [Except.ok.injEq] at hp
    rw [← hp]
    rfl

theorem repara_fechas (reidx : List Row) :
    (repara reidx).map (·.fecha) = reidx.map (·.fecha) := by
  unfold repara
  rw [List.map_ofFn]
  exact List.ofFn_get_eq_map reidx (·.fecha)

theorem reindex_fechas (grid : List ℤ) (sorted : List Row) :
    (reindexRows grid sorted).map (·.fecha) = grid := by
  induction grid with
  | nil => rfl
  | cons t ts ih =>
    unfold reindexRows at ih ⊢
    simp only [List.map_cons, List.map_map, ih, List.cons.injEq, and_true]
    cases h : sorted.find? (fun r => r.fecha == t) with
    | none => simp [h, blankRow]
    | some r =>
      have hr : r.fecha = t := by
        have := List.find?_some h
        simpa using this
      simp [h, hr]

theorem hourlyGrid_pairwise (t0 tN : ℤ) :
    (hourlyGrid t0 tN).Pairwise (· < ·) := by
  unfold hourlyGrid
  have base : (List.range ((tN - t0).toNat + 1)).Pairwise
      (fun a b : ℕ => t0 + (a : ℤ) < t0 + (b : ℤ)) :=
    List.Pairwise.imp (fun h => by omega) (List.pairwise_lt_range _)
  exact List.pairwise_map.mpr base

theorem mem_hourlyGrid {t0 tN t : ℤ} (h1 : t0 ≤ t) (h2 : t ≤ tN) :
    t ∈ hourlyGrid t0 tN := by
  unfold hourlyGrid
  have hk : (t - t0).toNat ∈ List.range ((tN - t0).toNat + 1) :=
    List.mem_range.mpr (by omega)
  have hmem : t0 + (((t - t0).toNat : ℕ) : ℤ) ∈
      (List.range ((tN - t0).toNat + 1)).map (fun k : ℕ => t0 + (k : ℤ)) :=
    List.mem_map_of_mem _ hk
  have he : t0 + (((t - t0).toNat : ℕ) : ℤ) = t := by omega
  exact he ▸ hmem

theorem mem_of_mem_dropDupKeepLast {x : Row} :
    ∀ {l : List Row}, x ∈ dropDupKeepLast l → x ∈ l := by
  intro l
  induction l with
  | nil => simp [dropDupKeepLast]
  | cons r rs ih =>
    unfold dropDupKeepLast
    split_ifs with h
    · intro hx
      exact List.mem_cons_of_mem r (ih hx)
    · intro hx
      rcases List.mem_cons.mp hx with hx | hx
      · exact hx ▸ List.mem_cons_self r rs
      · exact List.mem_cons_of_mem r (ih hx)

theorem dropDupKeepLast_nodup (l : List Row) :
    ((dropDupKeepLast l).map (·.fecha)).Nodup := by
  induction l with
  | nil => simp [dropDupKeepLast]
  | cons r rs ih =>
    unfold dropDupKeepLast
    split_ifs with h
    · exact ih
    · rw [List.map_cons, List.nodup_cons]
      refine ⟨?_, ih⟩
      intro hmem
      rcases List.mem_map.mp hmem with ⟨x, hx, hfx⟩
      exact h (List.any_eq_true.mpr
        ⟨x, mem_of_mem_dropDupKeepLast hx, beq_iff_eq.mpr hfx⟩)

theorem dropDupKeepLast_find? (l : List Row) (t : ℤ) :
    (dropDupKeepLast l).find? (fun r => r.fecha == t) =
      l.reverse.find? (fun r => r.fecha == t) := by
  induction l with
  | nil => rfl
  | cons r rs ih =>
    rw [List.reverse_cons, List.find?_append]
    unfold dropDupKeepLast
    split_ifs with hany
    · rw [ih]
      cases hfr : rs.reverse.find? (fun r => r.fecha == t) with
      | some x => simp
      | none =>
        rcases List.any_eq_true.mp hany with ⟨r2, hr2, hbeq⟩
        have hne : ¬(r.fecha = t) := by
          intro hrt
          have hforall := List.find?_eq_none.mp hfr r2 (List.mem_reverse.mpr hr2)
          apply hforall
          simp [eq_of_beq hbeq, hrt]
        simp [hne]
    · by_cases hrt : r.fecha = t
      · have hnone : rs.reverse.find? (fun r => r.fecha == t) = Option.none := by
          rw [List.find?_eq_none]
          intro x hx hbeq
          exact hany (List.any_eq_true.mpr ⟨x, List.mem_reverse.mp hx,
            by simp [eq_of_beq hbeq, hrt]⟩)
        simp [List.find?_cons, hrt, hnone]
      · simp only [List.find?_cons, show (r.fecha == t) = false by simp [hrt]]
        rw [ih]
        cases hfr : rs.reverse.find? (fun r => r.fecha == t) <;> simp [hrt]

/-- Claim C1: `calcular_coco` is specified to implement the priority-ordered
decision table (snow tiers, storm, rain tiers, fog, cloud tiers, clear,
default 2). The table exists in the source but is unreachable: the `try` block
always raises `UnboundLocalError` on the unassigned local `snow`, so the
function returns 2 for every input. At the failing input
`(temp 15, dwpt 14.5, rhum 99, pres 1013, precip 60)` the table (with its
snow default 0) yields the storm code 27, but the function returns 2. -/
theorem C1_coco_dead_table :
    (∀ temp dwpt rhum pres precip : PyVal,
      calcular_coco temp dwpt rhum pres precip = 2) ∧
    calcular_coco (.num 15) (.num 14.5) (.num 99) (.num 1013) (.num 60) = 2 ∧
    calcular_coco_tabla (Option.some 15) (Option.some 14.5) (Option.some 99)
      (Option.some 1013) (Option.some 60) (Option.some 0) = 27 := by
  exact ⟨calcular_coco_eq_two, by decide, by decide⟩

/-- Claim C5 counterexample: `calcular_wind_chill` does not guard its `float()`
casts, so a non-numeric (string) temperature makes it raise (modelled as
`Except.error`) instead of returning an absence marker. -/
theorem C5_counterexample :
    calcular_wind_chill (fun _ _ => 0) (.str "x") (.num 20) = .error () := rfl

/-- Claim C5 (amended): every calculator returns an explicit absence marker on
missing (`None`) or out-of-range numeric input, and all of them except
`calcular_wind_chill` also fail soft on non-numeric input; `calcular_wind_chill`
raises on a non-numeric input, but `calcular_sensacion_termica` catches that
exception, so it never escapes the combined sensation-temperature calculator. -/
theorem C5_amended_soft_failures (powf : ℚ → ℚ → ℚ) (expf sqrtf : ℚ → ℚ)
    (s : String) (q q' : ℚ) (v : PyVal) :
    calcular_wind_chill powf PyVal.none v = .ok Option.none ∧
    calcular_wind_chill powf v PyVal.none = .ok Option.none ∧
    calcular_wind_chill powf (.num 20) (.num 10) = .ok Option.none ∧
    calcular_wind_chill powf (.str s) (.num q) = .error () ∧
    calcular_heat_index sqrtf (.str s) (.num q) = Option.none ∧
    calcular_heat_index sqrtf (.num q) (.str s) = Option.none ∧
    calcular_heat_index sqrtf PyVal.none v = Option.none ∧
    calcular_apparent_temperature expf (.str s) (.num q) (.num q') = Option.none ∧
    calcular_apparent_temperature expf PyVal.none v v = Option.none ∧
    calcular_sensacion_termica powf expf sqrtf (.str s) (.num q) (.num q') =
      Option.none ∧
    calcular_sensacion_termica powf expf sqrtf PyVal.none PyVal.none PyVal.none =
      Option.none ∧
    calcular_visibilidad (.str s) v v v v v v = 20 ∧
    calcular_coco (.str s) v v v v = 2 := by
  refine ⟨by cases v <;> rfl, by cases v <;> rfl, rfl, rfl, rfl, rfl,
    by cases v <;> rfl, rfl, by cases v <;> rfl, rfl, rfl, rfl, ?_⟩
  cases v <;> rfl

/-- Claim C7 counterexample: with temperature 20, humidity 50, dew point 10,
no precipitation or snow, calm wind and a clear sky code, the visibility
calculator returns 22 km, outside the claimed clamp range `[0.05, 20]` (the
source's base and clamp ceiling are 22, not 20). -/
theorem C7_counterexample :
    calcular_visibilidad (.num 20) (.num 50) (.num 10) (.num 0) (.num 0)
      (.num 0) (.num 1) = 22 ∧ ¬((22 : ℚ) ≤ 20) := by
  constructor
  · with_unfolding_all rfl
  · norm_num

/-- Claim C7 (amended): for every input (valid or not) the visibility
calculator returns a multiple of 0.1 km in the range `[0.1, 22]`: base 22 km,
degraded by snow, precipitation, dew-point-spread fog, humidity tiers, the
COCO fog override and high wind, clamped to `[0.2, 22]` in the main branch
(the snow branch can reach 0.1), with fallback 20.0 on invalid input. -/
theorem C7_amended_range (temp rhum dwpt prcp snow wspd coco : PyVal) :
    1/10 ≤ calcular_visibilidad temp rhum dwpt prcp snow wspd coco ∧
    calcular_visibilidad temp rhum dwpt prcp snow wspd coco ≤ 22 ∧
    ∃ k : ℤ, calcular_visibilidad temp rhum dwpt prcp snow wspd coco = (k : ℚ)/10 := by
  unfold calcular_visibilidad
  rcases visConv temp rhum dwpt prcp snow wspd coco with e | ⟨t, d, rh, v, r, s, cc⟩
  · exact ⟨by norm_num, by norm_num, 200, by norm_num⟩
  · exact visCore_bounds t d rh v r s cc

/-- Claim C6 counterexample: an input with a duplicated timestamp (two rows at
hour 0) is not collapsed by the repair engine: pandas `reindex` raises on a
duplicate axis, so `rellenar_horas_perdidas` fails instead of producing an
hourly grid. -/
theorem C6_counterexample :
    rellenar_horas_perdidas
      [{ blankRow 0 with temp := Option.some 20 },
       { blankRow 0 with temp := Option.some 21 }] = .error () := rfl

/-- Claim C6 (amended): for a non-empty input whose timestamps are pairwise
distinct, the repaired output has exactly one row per hour spanning
`[min, max]` of the input, strictly increasing with no duplicates; an input
with duplicate timestamps makes the repair raise (the caller catches it), and
the keep-newest collapse of duplicates happens in the separate merge step
(`drop_duplicates(keep="last")`), whose result is duplicate-free and keeps,
for every timestamp, the last (most recently fetched) row. -/
theorem C6_amended_repair_grid (df : List Row) (h1 : df ≠ [])
    (h2 : ((sortRows df).map (·.fecha)).Nodup) :
    (∃ out, rellenar_horas_perdidas df = .ok out ∧
      out.map (·.fecha) = hourlyGrid (minFecha df) (maxFecha df) ∧
      (out.map (·.fecha)).Pairwise (· < ·) ∧
      ∀ t : ℤ, minFecha df ≤ t → t ≤ maxFecha df →
        (out.map (·.fecha)).count t = 1) ∧
    (∀ l : List Row, ((dropDupKeepLast l).map (·.fecha)).Nodup) ∧
    (∀ (l : List Row) (t : ℤ),
      (dropDupKeepLast l).find? (fun r => r.fecha == t) =
        l.reverse.find? (fun r => r.fecha == t)) := by
  refine ⟨?_, dropDupKeepLast_nodup, dropDupKeepLast_find?⟩
  cases df with
  | nil => exact absurd rfl h1
  | cons a as =>
    rw [rellenar_horas_perdidas, if_pos h2]
    refine ⟨_, rfl, ?_, ?_, ?_⟩
    · rw [repara_fechas, reindex_fechas]
    · rw [repara_fechas, reindex_fechas]
      exact hourlyGrid_pairwise _ _
    · intro t ht1 ht2
      rw [repara_fechas, reindex_fechas]
      exact List.count_eq_one_of_mem
        ((hourlyGrid_pairwise _ _).imp ne_of_lt) (mem_hourlyGrid ht1 ht2)

/-- Witness for C6 (amended): the theorem applied to the concrete two-row
series with a one-hour gap. -/
theorem C6_witness :
    (dfGap ≠ [] ∧ ((sortRows dfGap).map (·.fecha)).Nodup) ∧
    ((∃ out, rellenar_horas_perdidas dfGap = .ok out ∧
      out.map (·.fecha) = hourlyGrid (minFecha dfGap) (maxFecha dfGap) ∧
      (out.map (·.fecha)).Pairwise (· < ·) ∧
      ∀ t : ℤ, minFecha dfGap ≤ t → t ≤ maxFecha dfGap →
        (out.map (·.fecha)).count t = 1) ∧
    (∀ l : List Row, ((dropDupKeepLast l).map (·.fecha)).Nodup) ∧
    (∀ (l : List Row) (t : ℤ),
      (dropDupKeepLast l).find? (fun r => r.fecha == t) =
        l.reverse.find? (fun r => r.fecha == t))) :=
  ⟨⟨by decide, by decide⟩, C6_amended_repair_grid dfGap (by decide) (by decide)⟩

set_option maxRecDepth 100000 in
/-- Claim C8: `calcular_sensacion_termica` selects wind chill first (valid for
temperature ≤ 10 and wind ≥ 4.8), else heat index (valid for temperature ≥ 27
and humidity ≥ 40), else apparent temperature, else the raw temperature, and
rounds to 0.1. At temperature -5, wind 20, humidity 50 the wind-chill branch is
selected and the result is below -5 (the hypotheses bound the value of
`math.pow(20, 0.16)`, which lies in `[1.6, 1.63]`); at temperature 35, humidity
70, wind 5 the heat-index branch is selected and the result 50.3 is above 35;
at temperature 15 the apparent-temperature branch is selected; with wind `None`
and dry air the raw temperature is returned. -/
theorem C8_sensacion_branches (powf : ℚ → ℚ → ℚ) (expf sqrtf : ℚ → ℚ)
    (hp1 : (8/5 : ℚ) ≤ powf 20 0.16) (hp2 : powf 20 0.16 ≤ 163/100) :
    calcular_wind_chill powf (.num (-5)) (.num 20) = .ok (Option.some (round1
      (13.12 + 0.6215 * (-5 : ℚ) - 11.37 * powf 20 0.16
        + 0.3965 * (-5 : ℚ) * powf 20 0.16))) ∧
    calcular_sensacion_termica powf expf sqrtf (.num (-5)) (.num 50) (.num 20) =
      Option.some (round1 (13.12 + 0.6215 * (-5 : ℚ) - 11.37 * powf 20 0.16
        + 0.3965 * (-5 : ℚ) * powf 20 0.16)) ∧
    round1 (13.12 + 0.6215 * (-5 : ℚ) - 11.37 * powf 20 0.16
      + 0.3965 * (-5 : ℚ) * powf 20 0.16) < -5 ∧
    calcular_wind_chill powf (.num 35) (.num 5) = .ok Option.none ∧
    calcular_heat_index sqrtf (.num 35) (.num 70) = Option.some (503/10) ∧
    calcular_sensacion_termica powf expf sqrtf (.num 35) (.num 70) (.num 5) =
      Option.some (503/10) ∧
    (35 : ℚ) < 503/10 ∧
    calcular_sensacion_termica powf expf sqrtf (.num 15) (.num 50) (.num 10) =
      Option.some (round1
        (15 + 0.33 * vapour_pressure_hpa expf 15 50 - 0.70 * (10 / 3.6) - 4)) ∧
    calcular_sensacion_termica powf expf sqrtf (.num 50) (.num 30) PyVal.none =
      Option.some 50 := by
  have hwc : calcular_sensacion_termica powf expf sqrtf (.num (-5)) (.num 50)
      (.num 20) = Option.some (round1 (round1 (13.12 + 0.6215 * (-5 : ℚ)
        - 11.37 * powf 20 0.16 + 0.3965 * (-5 : ℚ) * powf 20 0.16))) := by
    with_unfolding_all rfl
  rw [round1_idem] at hwc
  have hat : calcular_sensacion_termica powf expf sqrtf (.num 15) (.num 50)
      (.num 10) = Option.some (round1 (round1
        (15 + 0.33 * vapour_pressure_hpa expf 15 50 - 0.70 * (10 / 3.6) - 4))) := by
    with_unfolding_all rfl
  rw [round1_idem] at hat
  have hlt : round1 (13.12 + 0.6215 * (-5 : ℚ) - 11.37 * powf 20 0.16
      + 0.3965 * (-5 : ℚ) * powf 20 0.16) < -5 := by
    have hub : 13.12 + 0.6215 * (-5 : ℚ) - 11.37 * powf 20 0.16
        + 0.3965 * (-5 : ℚ) * powf 20 0.16 ≤ -11.35 := by linarith
    have := round1_le_half (13.12 + 0.6215 * (-5 : ℚ) - 11.37 * powf 20 0.16
      + 0.3965 * (-5 : ℚ) * powf 20 0.16)
    linarith
  have hhi : calcular_heat_index sqrtf (.num 35) (.num 70) = Option.some (503/10) := by
    norm_num [calcular_heat_index, pyFloat, num_ne_none, ex_bind_ok, round1,
      pyRound0, Int.floor_eq_iff]
  have hsens2 : calcular_sensacion_termica powf expf sqrtf (.num 35) (.num 70)
      (.num 5) = Option.some (503/10) := by
    have hwc2 : calcular_wind_chill powf (.num 35) (.num 5) = .ok Option.none := by
      with_unfolding_all rfl
    norm_num [calcular_sensacion_termica, hwc2, hhi, ex_bind_ok, ex_pure,
      round1, pyRound0, Int.floor_eq_iff]
  refine ⟨by with_unfolding_all rfl, hwc, hlt, by with_unfolding_all rfl,
    hhi, hsens2, by norm_num, hat, by with_unfolding_all rfl⟩

/-- Witness for C8: the theorem applied at the concrete oracle value
`math.pow(20, 0.16) = 1.6` (each hypothesis discharged numerically). -/
theorem C8_witness :
    ((8/5 : ℚ) ≤ 8/5 ∧ (8/5 : ℚ) ≤ 163/100) ∧
    (calcular_wind_chill (fun _ _ => 8/5) (.num (-5)) (.num 20) =
      .ok (Option.some (round1 (13.12 + 0.6215 * (-5 : ℚ) - 11.37 * (8/5 : ℚ)
        + 0.3965 * (-5 : ℚ) * (8/5 : ℚ)))) ∧
    calcular_sensacion_termica (fun _ _ => 8/5) (fun _ => 0) (fun _ => 0)
        (.num (-5)) (.num 50) (.num 20) =
      Option.some (round1 (13.12 + 0.6215 * (-5 : ℚ) - 11.37 * (8/5 : ℚ)
        + 0.3965 * (-5 : ℚ) * (8/5 : ℚ))) ∧
    round1 (13.12 + 0.6215 * (-5 : ℚ) - 11.37 * (8/5 : ℚ)
      + 0.3965 * (-5 : ℚ) * (8/5 : ℚ)) < -5 ∧
    calcular_wind_chill (fun _ _ => 8/5) (.num 35) (.num 5) = .ok Option.none ∧
    calcular_heat_index (fun _ => 0) (.num 35) (.num 70) = Option.some (503/10) ∧
    calcular_sensacion_termica (fun _ _ => 8/5) (fun _ => 0) (fun _ => 0)
        (.num 35) (.num 70) (.num 5) = Option.some (503/10) ∧
    (35 : ℚ) < 503/10 ∧
    calcular_sensacion_termica (fun _ _ => 8/5) (fun _ => 0) (fun _ => 0)
        (.num 15) (.num 50) (.num 10) =
      Option.some (round1 (15 + 0.33 * vapour_pressure_hpa (fun _ => 0) 15 50
        - 0.70 * (10 / 3.6) - 4)) ∧
    calcular_sensacion_termica (fun _ _ => 8/5) (fun _ => 0) (fun _ => 0)
        (.num 50) (.num 30) PyVal.none = Option.some 50) :=
  ⟨⟨by norm_num, by norm_num⟩,
    C8_sensacion_branches (fun _ _ => 8/5) (fun _ => 0) (fun _ => 0)
      (by norm_num) (by norm_num)⟩

/-- Claim C10: the UV-index calculator never returns an absence marker: a
`None` or unparseable timestamp yields exactly 0.0, and every result is a
multiple of 0.1 in the range `[0, 13]`, for arbitrary temperature, sky code
and oracle values of `sin`/`exp`. -/
theorem C10_uv_total (sinDegf expf : ℚ → ℚ) (temp coco : PyVal)
    (fecha : Option FechaHora) :
    calcular_radiacion_uv sinDegf expf temp coco Option.none = 0 ∧
    0 ≤ calcular_radiacion_uv sinDegf expf temp coco fecha ∧
    calcular_radiacion_uv sinDegf expf temp coco fecha ≤ 13 ∧
    ∃ k : ℤ, calcular_radiacion_uv sinDegf expf temp coco fecha = (k : ℚ)/10 := by
  refine ⟨rfl, ?_⟩
  rcases fecha with _ | dt
  · refine ⟨?_, ?_, 0, ?_⟩ <;> norm_num [calcular_radiacion_uv]
  · simp only [calcular_radiacion_uv]
    split_ifs <;>
      first
        | exact ⟨le_refl 0, by norm_num, 0, by norm_num⟩
        | exact uv_clamp_bounds _

/-- Claim C2 counterexample: in a run whose latest real observation has
temperature 20 but whose model predicts 5 (with empty quantile dictionaries
and zero draws), day 0's `temp_high` is 7 and `temp_low` is 3 — 13 degrees
from the observation, not within ±2: day 0 is model-derived, not an
observation passthrough. -/
theorem C2_counterexample :
    u0ex.temp = 20 ∧
    (step P2ex 0 u0ex).map (fun x => (x.1.temp_avg, x.1.temp_high, x.1.temp_low))
      = .ok (5, 7, 3) ∧
    ¬((20 : ℚ) - 2 ≤ ((7 : ℤ) : ℚ) ∧ ((7 : ℤ) : ℚ) ≤ 20 + 2) := by
  refine ⟨rfl, ?_, by norm_num⟩
  with_unfolding_all rfl

/-- Claim C2 (amended): forecast day 0 calls the model like every other day
(its only special case is that the stochastic perturbation is skipped):
`temp_avg` is the rounded bare model prediction on the day-0 feature row,
`temp_high`/`temp_low` are the rounded max/min of the prediction against the
historical month-at-noon quantiles plus the bounded uniform offsets (so, with
in-range draws, `temp_low ≤ temp_avg ≤ temp_high`), and the latest real
observation's temperature is not consulted. The first produced Forecast Day
of `predecir_7dias` is exactly this day-0 entry. -/
theorem C2_amended_day0_model (P : Params) (u : Ultimo) (e : Entry) (u2 : Ultimo)
    (hs : step P 0 u = .ok (e, u2)) (hg : 0 ≤ P.gHigh 0) (hl : P.gLow 0 ≤ 0) :
    e.temp_avg = pyRound0 (P.mTemp (dayRow P 0 u)) ∧
    e.temp_high = pyRound0 (tempHighRawOf P 0 u) ∧
    e.temp_low = pyRound0 (tempLowRawOf P 0 u) ∧
    e.temp_low ≤ e.temp_avg ∧ e.temp_avg ≤ e.temp_high ∧
    (∀ l, predecir_7dias P u = .ok l → l.head? = Option.some e) := by
  obtain ⟨⟨sens, he⟩, hu⟩ := step_ok_inv P 0 u e u2 hs
  subst he
  have htp : tempPredOf P 0 u = P.mTemp (dayRow P 0 u) := by
    simp [tempPredOf]
  refine ⟨by rw [show (entryOf P 0 u sens).temp_avg =
      pyRound0 (tempPredOf P 0 u) from rfl, htp], rfl, rfl, ?_, ?_, ?_⟩
  · show pyRound0 (tempLowRawOf P 0 u) ≤ pyRound0 (tempPredOf P 0 u)
    apply pyRound0_mono
    unfold tempLowRawOf
    have h1 := min_le_left (tempPredOf P 0 u)
      ((P.stats10 (P.months 0)).getD (tempPredOf P 0 u - P.globalStd))
    linarith
  · show pyRound0 (tempPredOf P 0 u) ≤ pyRound0 (tempHighRawOf P 0 u)
    apply pyRound0_mono
    unfold tempHighRawOf
    have h1 := le_max_left (tempPredOf P 0 u)
      ((P.stats90 (P.months 0)).getD (tempPredOf P 0 u + P.globalStd))
    linarith
  · intro l hp
    exact predecir_head P u _ u2 l hs hp

/-- Witness for C2 (amended): the theorem applied to the concrete C2 run
(step evaluated, draw bounds discharged numerically). -/
theorem C2_witness :
    (step P2ex 0 u0ex = .ok (E2ex, nextUOf P2ex 0 u0ex) ∧
      0 ≤ P2ex.gHigh 0 ∧ P2ex.gLow 0 ≤ 0) ∧
    (E2ex.temp_avg = pyRound0 (P2ex.mTemp (dayRow P2ex 0 u0ex)) ∧
    E2ex.temp_high = pyRound0 (tempHighRawOf P2ex 0 u0ex) ∧
    E2ex.temp_low = pyRound0 (tempLowRawOf P2ex 0 u0ex) ∧
    E2ex.temp_low ≤ E2ex.temp_avg ∧ E2ex.temp_avg ≤ E2ex.temp_high ∧
    (∀ l, predecir_7dias P2ex u0ex = .ok l → l.head? = Option.some E2ex)) := by
  have hs : step P2ex 0 u0ex = .ok (E2ex, nextUOf P2ex 0 u0ex) := by
    with_unfolding_all rfl
  exact ⟨⟨hs, by norm_num [P2ex, constParams], by norm_num [P2ex, constParams]⟩,
    C2_amended_day0_model P2ex u0ex E2ex (nextUOf P2ex 0 u0ex) hs
      (by norm_num [P2ex, constParams]) (by norm_num [P2ex, constParams])⟩

/-- Claim C3 counterexample: with a historical 10th percentile of -50 and a
model prediction of 20 at saturation humidity (dew point exactly 20), the
day-0 `temp_low` is -50, far below `dew_point_estimate - 2 = 18`: no
dew-point invariant is enforced and no upward adjustment exists. -/
theorem C3_counterexample :
    (step P3ex 0 u0ex).map (fun x => ((x.1.temp_low : ℚ), x.2.dwpt))
      = .ok (-50, 20) ∧
    ¬((-50 : ℚ) ≥ 20 - 2) := by
  refine ⟨?_, by norm_num⟩
  with_unfolding_all rfl

/-- Claim C3 (amended): every produced Forecast Day satisfies only the weak
ordering `temp_low ≤ temp_high` (whenever the uniform draws are in their
documented ranges); after rounding the two can be equal, and no lower bound
relative to the dew-point estimate is enforced. -/
theorem C3_amended_weak_order (P : Params) (d : ℕ) (u : Ultimo) (e : Entry)
    (u2 : Ultimo) (hs : step P d u = .ok (e, u2))
    (hg : 0 ≤ P.gHigh d) (hl : P.gLow d ≤ 0) :
    e.temp_low ≤ e.temp_high := by
  obtain ⟨⟨sens, he⟩, _⟩ := step_ok_inv P d u e u2 hs
  subst he
  show pyRound0 (tempLowRawOf P d u) ≤ pyRound0 (tempHighRawOf P d u)
  apply pyRound0_mono
  unfold tempLowRawOf tempHighRawOf
  have h1 := min_le_left (tempPredOf P d u)
    ((P.stats10 (P.months d)).getD (tempPredOf P d u - P.globalStd))
  have h2 := le_max_left (tempPredOf P d u)
    ((P.stats90 (P.months d)).getD (tempPredOf P d u + P.globalStd))
  linarith

/-- Witness for C3 (amended): the theorem applied to the concrete C2 run. -/
theorem C3_witness :
    (step P2ex 0 u0ex = .ok (E2ex, nextUOf P2ex 0 u0ex) ∧
      0 ≤ P2ex.gHigh 0 ∧ P2ex.gLow 0 ≤ 0) ∧
    E2ex.temp_low ≤ E2ex.temp_high := by
  have hs : step P2ex 0 u0ex = .ok (E2ex, nextUOf P2ex 0 u0ex) := by
    with_unfolding_all rfl
  exact ⟨⟨hs, by norm_num [P2ex, constParams], by norm_num [P2ex, constParams]⟩,
    C3_amended_weak_order P2ex 0 u0ex E2ex (nextUOf P2ex 0 u0ex) hs
      (by norm_num [P2ex, constParams]) (by norm_num [P2ex, constParams])⟩

/-- Claim C4 counterexample: nothing clips the predictions. A model output of
-30 °C and 900 hPa is reported and folded back unchanged on day 0 (both
outside the claimed ranges [-10, 42] and [950, 1060]), and on day 1 the
-20 draw takes the temperature to -50 °C, still unclipped. -/
theorem C4_counterexample :
    (step P4ex 0 u0ex).map (fun x => (x.1.temp_avg, x.2.temp, x.2.pres))
      = .ok (-30, -30, 900) ∧
    ((step P4ex 0 u0ex >>= fun s0 => step P4ex 1 s0.2).map
      (fun x => (x.1.temp_avg, x.2.temp))) = .ok (-50, -50) ∧
    ¬((-10 : ℚ) ≤ -30) ∧ ¬((950 : ℚ) ≤ 900) ∧ ¬((-10 : ℚ) ≤ -50) := by
  refine ⟨?_, ?_, by norm_num, by norm_num, by norm_num⟩ <;> with_unfolding_all rfl

/-- Claim C4 (amended): the walk-forward step applies no clipping after the
perturbation: for every rational `q` there is a run whose day-1 predicted
temperature is exactly `q`, reported (`temp_avg`) and folded back into the
state unchanged; the only clips in the step are of humidity to [1, 100]
inside the dew-point inversion and of the precipitation factors to [0, 1]. -/
theorem C4_amended_no_clip (q : ℚ) :
    ∃ (P : Params) (u : Ultimo) (e : Entry) (u2 : Ultimo),
      step P 1 u = .ok (e, u2) ∧ u2.temp = q ∧ e.temp_avg = pyRound0 q := by
  obtain ⟨sens, hstep⟩ := step_ok (C4P q) 1 u0ex
  have htp : tempPredOf (C4P q) 1 u0ex = q := by
    simp [tempPredOf, C4P, constParams]
  refine ⟨C4P q, u0ex, _, _, hstep, ?_, ?_⟩
  · show tempPredOf (C4P q) 1 u0ex = q
    exact htp
  · show pyRound0 (tempPredOf (C4P q) 1 u0ex) = pyRound0 q
    rw [htp]

/-- Claim C9 counterexample: the training feature list places `temp_lag1` and
`temp_roll24` at positions 14 and 17, but after day 0 (state temperature 20)
the day-1 feature row holds 0.0 at both positions — the forecast-time frame
never builds lag/rolling columns, so `ultimo.get` falls back to the 0.0
default instead of the state's own values. -/
theorem C9_counterexample :
    (featuresList [])[14]? = Option.some "temp_lag1" ∧
    (featuresList [])[17]? = Option.some "temp_roll24" ∧
    (step P9ex 0 u0ex).map (fun x => x.2.temp) = .ok 20 ∧
    (step P9ex 0 u0ex).map
      (fun x => ((dayRow P9ex 1 x.2)[14]?, (dayRow P9ex 1 x.2)[17]?))
      = .ok (Option.some 0, Option.some 0) ∧
    ¬((0 : ℚ) = 20) := by
  refine ⟨by decide, by decide, ?_, ?_, by norm_num⟩ <;> with_unfolding_all rfl

/-- Claim C9 (amended): at every walk-forward step, every lag and rolling
feature read into the single-row feature vector is the default 0.0 (the
forecast frame has no such columns, and the one-hot dummies never shadow
them), and the step folds back only the six base fields, preserving that
property for the next iteration. -/
theorem C9_amended_lags_zero (P : Params) (u : Ultimo) (d : ℕ)
    (hdum : ∀ n ∈ lagRollNames, u.dummies.lookup n = Option.none) :
    (∀ n ∈ lagRollNames, getU (setCalendar P d u) n = 0) ∧
    (∀ e u2, step P d u = .ok (e, u2) → ∀ n ∈ lagRollNames,
      u2.dummies.lookup n = Option.none) := by
  constructor
  · intro n hn
    have hb : n ∉ baseFeatureNames := by fin_cases hn <;> decide
    rw [getU_not_base _ _ hb,
      show (setCalendar P d u).dummies = u.dummies from rfl, hdum n hn]
    rfl
  · intro e u2 hs n hn
    obtain ⟨_, hu⟩ := step_ok_inv P d u e u2 hs
    subst hu
    show ((nextUOf P d u).dummies).lookup n = Option.none
    rw [show (nextUOf P d u).dummies = u.dummies from rfl]
    exact hdum n hn

/-- Witness for C9 (amended): the theorem applied to the concrete C9 run
(no dummy columns at all). -/
theorem C9_witness :
    (∀ n ∈ lagRollNames, u0ex.dummies.lookup n = Option.none) ∧
    ((∀ n ∈ lagRollNames, getU (setCalendar P9ex 1 u0ex) n = 0) ∧
    (∀ e u2, step P9ex 1 u0ex = .ok (e, u2) → ∀ n ∈ lagRollNames,
      u2.dummies.lookup n = Option.none)) := by
  have hdum : ∀ n ∈ lagRollNames, u0ex.dummies.lookup n = Option.none := by
    intro n hn
    rfl
  exact ⟨hdum, C9_amended_lags_zero P9ex u0ex 1 hdum⟩

end WeatherApp
